import Mathlib

/-!
Verification of the LEI-lookup tool (`capstone_project.py`): a shallow
embedding of its fetch / flatten / relationship-resolution pipeline,
with theorems settling the specification claims.

The Python program manipulates parsed JSON (dicts, lists, strings,
numbers, booleans, `None`).  `JVal` models those values; fallible
Python expressions (dict indexing, `.get` on non-dicts, `", ".join`,
list indexing) are embedded in `Except PyErr`, where `PyErr` names the
exception Python would raise.  The HTTP layer (`requests`) is
abstracted as a function from a URL to a transport outcome.
-/

set_option maxHeartbeats 1000000

/-- A parsed JSON value, as Python represents it after `response.json()`:
`null`/`None`, booleans, numbers (the program never does arithmetic on
them, so `Int` suffices), strings, lists, and dicts (association lists;
Python dict lookup is modelled as first-match lookup). -/
inductive JVal where
  | null : JVal
  | bool : Bool → JVal
  | num : Int → JVal
  | str : String → JVal
  | arr : List JVal → JVal
  | obj : List (String × JVal) → JVal

/-- The Python exceptions the embedded code can raise. -/
inductive PyErr where
  | keyError (k : String)
  | typeError
  | indexError
  | attributeError
  deriving DecidableEq

/-- Association-list lookup, first match wins (Python dict semantics for
the well-formed, duplicate-free dicts the program builds and receives). -/
def lookupKey {α : Type} (kvs : List (String × α)) (k : String) : Option α :=
  match kvs with
  | [] => none
  | (k', v) :: rest => if k' = k then some v else lookupKey rest k

/-- Python `d[k]`: `KeyError` on a missing key, `TypeError` when `d` is
not a dict (approximating Python's various non-subscriptable errors). -/
def getKey (k : String) : JVal → Except PyErr JVal
  | .obj kvs =>
      match lookupKey kvs k with
      | some v => .ok v
      | none => .error (.keyError k)
  | _ => .error .typeError

/-- Python `d[k1][k2]...`: successive indexing along a path. -/
def getPath (j : JVal) : List String → Except PyErr JVal
  | [] => .ok j
  | k :: rest => do getPath (← getKey k j) rest

/-- Python `d.get(k, dflt)`: `AttributeError` when the receiver is not a
dict (e.g. `float('nan').get(...)`), the default when the key is absent. -/
def pyGet (j : JVal) (k : String) (dflt : JVal) : Except PyErr JVal :=
  match j with
  | .obj kvs =>
      match lookupKey kvs k with
      | some v => .ok v
      | none => .ok dflt
  | _ => .error .attributeError

/-- Python truthiness of a parsed JSON value (`if x:`). -/
def truthy : JVal → Bool
  | .null => false
  | .bool b => b
  | .num n => n != 0
  | .str s => !s.isEmpty
  | .arr xs => !xs.isEmpty
  | .obj kvs => !kvs.isEmpty

/-- Python `x[0]`: first element of a list (`IndexError` when empty),
first character of a string, `TypeError` otherwise. -/
def index0 : JVal → Except PyErr JVal
  | .arr (x :: _) => .ok x
  | .arr [] => .error .indexError
  | .str s => if s.isEmpty then .error .indexError else .ok (.str (s.take 1))
  | _ => .error .typeError

/-- Python `sep.join(x)` on a parsed JSON value: joins a list of strings
(`TypeError` if an element is not a string) or the characters of a
string; other receivers are a `TypeError` (dict receivers, which Python
would iterate by key, do not occur in this program). -/
def pyJoin (sep : String) : JVal → Except PyErr JVal
  | .arr xs => do
      let ss ← xs.mapM fun x =>
        match x with
        | .str s => Except.ok s
        | _ => Except.error PyErr.typeError
      pure (JVal.str (String.intercalate sep ss))
  | .str s => .ok (.str (String.intercalate sep (s.toList.map (fun c => String.mk [c]))))
  | _ => .error .typeError

/-- Python `"k" in x`: key containment for dicts, element containment
for lists, substring test for strings, `TypeError` otherwise. -/
def pyContains (j : JVal) (k : String) : Except PyErr Bool :=
  match j with
  | .obj kvs => .ok (lookupKey kvs k).isSome
  | .arr xs => .ok (xs.any fun x => match x with | .str s => s = k | _ => false)
  | .str s => .ok ((s.splitOn k).length > 1)
  | _ => .error .typeError

/-- Python `lei != input_lei` where `input_lei` is a string: equal only
when `lei` is that same string (values of other types are never equal
to a string in Python). -/
def pyEqStr (j : JVal) (s : String) : Bool :=
  match j with
  | .str t => t = s
  | _ => false

/-- Whether a value is hashable in Python (may be put in a `set`). -/
def hashable : JVal → Bool
  | .arr _ => false
  | .obj _ => false
  | _ => true

/-- Python `==` on hashable JSON scalars (the only values the program's
`set(...)` ever receives; Python's `1 == True` coercion is irrelevant
there and not modelled). -/
def scalarEq : JVal → JVal → Bool
  | .null, .null => true
  | .bool a, .bool b => a = b
  | .num a, .num b => a = b
  | .str a, .str b => a = b
  | _, _ => false

/-- Duplicate removal keeping first occurrences, with an accumulator of
already-seen values. -/
def dedupAcc (seen : List JVal) : List JVal → List JVal
  | [] => []
  | x :: xs =>
      if seen.any (scalarEq x) then dedupAcc seen xs
      else x :: dedupAcc (x :: seen) xs

/-- Python `list(set(xs))`: a `TypeError` when an element is unhashable,
otherwise the distinct elements (the hash order of a Python set carries
no contract; first-occurrence order is used as a representative). -/
def pySet (xs : List JVal) : Except PyErr (List JVal) :=
  if xs.all hashable then .ok (dedupAcc [] xs) else .error .typeError

/-! ## The Fetcher: `get_lei_information` -/

/-- The outcome of one `requests.get` call: either a raised
`requests.exceptions.RequestException` (network/DNS/timeout failure)
carrying its message, or a completed HTTP exchange carrying the status
code, the raw body text (`response.text`) and the parsed body
(`response.json()`; bodies are assumed parseable, which is the only
case the program's claims exercise). -/
inductive HttpResult where
  | exn (details : String)
  | resp (status : Nat) (text : String) (body : JVal)

/-- The transport layer, abstracted: a URL-indexed family of outcomes. -/
def Net : Type := String → HttpResult

/-- `url = f"https://api.gleif.org/api/v1/lei-records/{lei}"`. -/
def leiUrl (lei : String) : String :=
  "https://api.gleif.org/api/v1/lei-records/" ++ lei

/-- `get_lei_information(lei)`: GET the LEI-record URL; on status 200
return the parsed JSON body, on any other status return an error dict
carrying the status code in its message and the raw body text verbatim
as `details`, and on a raised request exception return an error dict
with the exception's message. -/
def get_lei_information (net : Net) (lei : String) : JVal :=
  match net (leiUrl lei) with
  | .resp status text body =>
      if status = 200 then body
      else
        .obj [("error", .str ("Error retrieving data (status code " ++ toString status ++ ").")),
              ("details", .str text)]
  | .exn e =>
      .obj [("error", .str "An error occurred during the request."),
            ("details", .str e)]

/-! ## The Flattener: `json_to_dataframe`

The source builds one Python dict literal `flat_data` from three
bindings (`attributes`, `entity`, `registration`), evaluating the ~40
field expressions in order (the first exception aborts the whole
construction), then wraps it in a one-row DataFrame indexed by
"Legal Name".  The DataFrame wrapping and `set_index` are presentation
(the row's "Legal Name" column always exists, being part of the same
literal), so the embedding returns the flat row itself. -/

/-- A flattened row: the `flat_data` dict, field name to value
(`JVal.null` standing for Python `None`). -/
def FlatRow : Type := List (String × JVal)

/-- `entity["transliteratedOtherNames"][0][k] if
entity["transliteratedOtherNames"] else None` (the source evaluates
`entity["transliteratedOtherNames"]` in both the condition and the
branch; the value is pure, so it is bound once). -/
def translitField (entity : JVal) (k : String) : Except PyErr JVal := do
  let ton ← getKey "transliteratedOtherNames" entity
  if truthy ton then getKey k (← index0 ton) else pure JVal.null

/-- `", ".join(attributes[k]) if attributes[k] else None` (the `bic`
and `spglobal` code-list fields). -/
def joinIfField (attributes : JVal) (k : String) : Except PyErr JVal := do
  let v ← getKey k attributes
  if truthy v then pyJoin ", " v else pure JVal.null

/-- `", ".join(root[k1][k2]...)` (the address-line fields). -/
def joinedPath (root : JVal) (p : List String) : Except PyErr JVal := do
  pyJoin ", " (← getPath root p)

/-- The `flat_data` dict literal: each field name paired with the
expression computing it, in source order. -/
def fieldSpecs (attributes entity registration : JVal) :
    List (String × Except PyErr JVal) :=
  [("LEI", getKey "lei" attributes),
   ("Legal Name", getPath entity ["legalName", "name"]),
   ("Legal Name Language", getPath entity ["legalName", "language"]),
   ("Transliterated Legal Name", translitField entity "name"),
   ("Transliterated Legal Name Language", translitField entity "language"),
   ("Transliterated Legal Name Type", translitField entity "type"),
   ("Legal Address", joinedPath entity ["legalAddress", "addressLines"]),
   ("Legal Address Language", getPath entity ["legalAddress", "language"]),
   ("Legal Address City", getPath entity ["legalAddress", "city"]),
   ("Legal Address Region", getPath entity ["legalAddress", "region"]),
   ("Legal Address Country", getPath entity ["legalAddress", "country"]),
   ("Legal Address Postal Code", getPath entity ["legalAddress", "postalCode"]),
   ("Headquarters Address", joinedPath entity ["headquartersAddress", "addressLines"]),
   ("Headquarters Address Language", getPath entity ["headquartersAddress", "language"]),
   ("Headquarters Address City", getPath entity ["headquartersAddress", "city"]),
   ("Headquarters Address Region", getPath entity ["headquartersAddress", "region"]),
   ("Headquarters Address Country", getPath entity ["headquartersAddress", "country"]),
   ("Headquarters Address Postal Code", getPath entity ["headquartersAddress", "postalCode"]),
   ("Jurisdiction", getKey "jurisdiction" entity),
   ("Category", getKey "category" entity),
   ("Legal Form ID", getPath entity ["legalForm", "id"]),
   ("Registered At ID", getPath entity ["registeredAt", "id"]),
   ("Registered As", getKey "registeredAs" entity),
   ("Entity Status", getKey "status" entity),
   ("Creation Date", getKey "creationDate" entity),
   ("Expiration Date", getPath entity ["expiration", "date"]),
   ("Expiration Reason", getPath entity ["expiration", "reason"]),
   ("Associated Entity LEI", getPath entity ["associatedEntity", "lei"]),
   ("Associated Entity Name", getPath entity ["associatedEntity", "name"]),
   ("BIC Codes", joinIfField attributes "bic"),
   ("MIC", getKey "mic" attributes),
   ("OCID", getKey "ocid" attributes),
   ("SP Global IDs", joinIfField attributes "spglobal"),
   ("Conformity Flag", getKey "conformityFlag" attributes),
   ("Initial Registration Date", getKey "initialRegistrationDate" registration),
   ("Last Update Date", getKey "lastUpdateDate" registration),
   ("Next Renewal Date", getKey "nextRenewalDate" registration),
   ("Registration Status", getKey "status" registration),
   ("Managing LOU", getKey "managingLou" registration),
   ("Corroboration Level", getKey "corroborationLevel" registration),
   ("Validated At ID", getPath registration ["validatedAt", "id"]),
   ("Validated As", getKey "validatedAs" registration)]

/-- Evaluate a dict literal's field expressions in order; the first
exception aborts the whole construction, as in Python. -/
def seqFields : List (String × Except PyErr JVal) → Except PyErr FlatRow
  | [] => .ok []
  | (k, c) :: rest => do
      let v ← c
      let r ← seqFields rest
      pure ((k, v) :: r)

/-- `json_to_dataframe(data)`: bind `attributes`, `entity` and
`registration`, then evaluate the `flat_data` literal. -/
def json_to_dataframe (data : JVal) : Except PyErr FlatRow := do
  let attributes ← getKey "attributes" (← getKey "data" data)
  let entity ← getKey "entity" attributes
  let registration ← getKey "registration" attributes
  seqFields (fieldSpecs attributes entity registration)

/-! ## The Relationship Resolver: `fetch_relationship_data` -/

/-- One element of the `results` list built by
`fetch_relationship_data`: either
`{"Relationship Name": n, "Link": l, "Data": payload}` after a
successful fetch, or `{"Relationship Name": n, "Link": l, "Error": msg}`
after a caught `RequestException`. -/
inductive RelEntry where
  | data (relName link : String) (payload : JVal)
  | err (relName link : String) (msg : String)

/-- The message of the `requests.exceptions.HTTPError` raised by
`response.raise_for_status()` (its exact wording carries no contract
here; it records the status and URL). -/
def httpErrorMsg (status : Nat) (url : String) : String :=
  toString status ++ " Error for url: " ++ url

/-- One iteration of the relationship loop: read
`rel_data.get("links", {}).get("related")`; when it is truthy, GET it,
with `raise_for_status` turning any status ≥ 400 into a caught
`HTTPError`; a falsy (absent/empty) link yields no entry.  (A truthy
non-string link, which `requests.get` would reject, is not exercised by
this program and is modelled as a `TypeError`.) -/
def processRel (relNet : Net) (rel_name : String) (rel_data : JVal) :
    Except PyErr (Option RelEntry) := do
  let related_link ← pyGet (← pyGet rel_data "links" (JVal.obj [])) "related" JVal.null
  if truthy related_link then
    match related_link with
    | .str link =>
        match relNet link with
        | .exn e => pure (some (.err rel_name link e))
        | .resp status _text body =>
            if 400 ≤ status then pure (some (.err rel_name link (httpErrorMsg status link)))
            else pure (some (.data rel_name link body))
    | _ => Except.error PyErr.typeError
  else
    pure none

/-- `fetch_relationship_data(base_data)`: iterate
`base_data["data"].get("relationships", {}).items()` in order,
collecting one entry per relationship that carries a truthy related
link (`.items()` on a non-dict is an `AttributeError`). -/
def fetch_relationship_data (relNet : Net) (base_data : JVal) :
    Except PyErr (List RelEntry) := do
  let d ← getKey "data" base_data
  let relationships ← pyGet d "relationships" (JVal.obj [])
  match relationships with
  | .obj kvs =>
      kvs.foldlM (fun acc kv => do
        match ← processRel relNet kv.1 kv.2 with
        | some entry => pure (acc ++ [entry])
        | none => pure acc) ([] : List RelEntry)
  | _ => .error .attributeError

/-- One value of the pandas column `relationship_df["Data"]`: the
payload for a row whose dict had a `"Data"` key, and the float `NaN`
pandas fills in for a row whose dict did not (an error row). -/
inductive Cell where
  | val (j : JVal)
  | nan

/-- Whether an entry is a success (`"Data"`) entry. -/
def RelEntry.hasData : RelEntry → Bool
  | .data _ _ _ => true
  | .err _ _ _ => false

/-- `pd.DataFrame(results)["Data"]`: the column exists only when some
row dict carries the `"Data"` key (otherwise selecting it raises
`KeyError('Data')`); rows without the key are filled with `NaN`. -/
def dataColumn (entries : List RelEntry) : Except PyErr (List Cell) :=
  if entries.any RelEntry.hasData then
    .ok (entries.map fun e =>
      match e with
      | .data _ _ p => Cell.val p
      | .err _ _ _ => Cell.nan)
  else .error (.keyError "Data")

/-! ## `extract_related_leis` -/

/-- The body run for each object of a payload's `data` field:
`lei = entry.get("attributes", {}).get("lei")`, appended when
`lei and lei != input_lei`. -/
def appendLei (input_lei : String) (acc : List JVal) (entry : JVal) :
    Except PyErr (List JVal) := do
  let lei ← pyGet (← pyGet entry "attributes" (JVal.obj [])) "lei" JVal.null
  pure (if truthy lei && !pyEqStr lei input_lei then acc ++ [lei] else acc)

/-- One iteration of the loop over `relationship_data`:
`relationship.get("data")` (an `AttributeError` on the `NaN` of an
error row), then the list or single-dict case; a `data` field of any
other shape contributes nothing. -/
def cellLeis (input_lei : String) (acc : List JVal) : Cell → Except PyErr (List JVal)
  | .nan => .error .attributeError
  | .val relationship => do
      let data_field ← pyGet relationship "data" JVal.null
      match data_field with
      | .arr entries => entries.foldlM (appendLei input_lei) acc
      | .obj kvs => appendLei input_lei acc (.obj kvs)
      | _ => pure acc

/-- `extract_related_leis(relationship_data, input_lei)`: accumulate
`related_leis` over the `Data` column, then `list(set(related_leis))`. -/
def extract_related_leis (relationship_data : List Cell) (input_lei : String) :
    Except PyErr (List JVal) := do
  pySet (← relationship_data.foldlM (cellLeis input_lei) [])

/-! ## The Streamlit flow (`main`) -/

/-- `f"{x}"` for the values that can reach the related-entity loop
(string identifiers in every exercised run; other reprs are
approximated). -/
def pyFormat : JVal → String
  | .str s => s
  | .num n => toString n
  | .bool b => if b then "True" else "False"
  | .null => "None"
  | .arr _ => "[...]"
  | .obj _ => "{...}"

/-- The related-entities section rendered after a successful primary
lookup. -/
inductive RelPart where
  /-- `relationship_df` was empty: "No relationships found". -/
  | noRelationships
  /-- The per-related-identifier loop ran: the flattened rows of the
  successful lookups and the `(error, details)` notices of the failed
  ones (an empty row list renders as "No relationships found"). -/
  | related (relatedRows : List FlatRow) (relatedErrors : List (JVal × JVal))

/-- What one button press renders. -/
inductive LookupResult where
  /-- The primary lookup's dict had an `"error"` key: the error and its
  details are shown and nothing else happens. -/
  | primaryError (msg details : JVal)
  /-- An uncaught Python exception aborted the script. -/
  | crash (e : PyErr)
  /-- The primary row was rendered, followed by the relationships
  section. -/
  | rendered (row : FlatRow) (rel : RelPart)

/-- The loop `for related_lei in related_leis:` — fetch each related
identifier, show an error notice when the result dict has an `"error"`
key, otherwise flatten and stack the row. -/
def relatedLoop (net : Net) (leis : List JVal) :
    Except PyErr (List FlatRow × List (JVal × JVal)) :=
  leis.foldlM (fun acc lei => do
    let data := get_lei_information net (pyFormat lei)
    if ← pyContains data "error" then do
      let m ← getKey "error" data
      let d ← getKey "details" data
      pure (acc.1, acc.2 ++ [(m, d)])
    else do
      let row ← json_to_dataframe data
      pure (acc.1 ++ [row], acc.2)) ([], [])

/-- The body of `if st.button(...)`: primary fetch, `"error" in data`
branch, flatten, relationship fetch, identifier extraction, and the
related-entity loop. -/
def mainFlow (net relNet : Net) (input_lei : String) : LookupResult :=
  let data := get_lei_information net input_lei
  match pyContains data "error" with
  | .error e => .crash e
  | .ok true =>
      match getKey "error" data with
      | .error e => .crash e
      | .ok m =>
          match getKey "details" data with
          | .error e => .crash e
          | .ok d => .primaryError m d
  | .ok false =>
      match json_to_dataframe data with
      | .error e => .crash e
      | .ok row =>
          match fetch_relationship_data relNet data with
          | .error e => .crash e
          | .ok entries =>
              if entries.isEmpty then .rendered row .noRelationships
              else
                match dataColumn entries with
                | .error e => .crash e
                | .ok cells =>
                    match extract_related_leis cells input_lei with
                    | .error e => .crash e
                    | .ok related_leis =>
                        match relatedLoop net related_leis with
                        | .error e => .crash e
                        | .ok res => .rendered row (.related res.1 res.2)

/-! ## Concrete sample records (witness inputs) -/

/-- A registry record in the upstream schema, parameterised by the
fields the claims vary (transliterated names, code lists, legal
address lines, relationships). -/
def mkRecord (translit bic spglobal legalLines relationships : JVal) : JVal :=
  .obj [("data", .obj
    [("attributes", .obj
      [("lei", .str "529900W18LQJJN6SJ336"),
       ("entity", .obj
         [("legalName", .obj [("name", .str "Sample Co"), ("language", .str "en")]),
          ("transliteratedOtherNames", translit),
          ("legalAddress", .obj
            [("addressLines", legalLines),
             ("language", .str "en"), ("city", .str "Paris"),
             ("region", .str "FR-75"), ("country", .str "FR"),
             ("postalCode", .str "75001")]),
          ("headquartersAddress", .obj
            [("addressLines", .arr [.str "1 Main St", .str "Floor 2"]),
             ("language", .str "en"), ("city", .str "Paris"),
             ("region", .str "FR-75"), ("country", .str "FR"),
             ("postalCode", .str "75001")]),
          ("jurisdiction", .str "FR"), ("category", .str "GENERAL"),
          ("legalForm", .obj [("id", .str "6W6X")]),
          ("registeredAt", .obj [("id", .str "RA000189")]),
          ("registeredAs", .str "552 100 554"),
          ("status", .str "ACTIVE"),
          ("creationDate", .str "2000-01-01"),
          ("expiration", .obj [("date", .null), ("reason", .null)]),
          ("associatedEntity", .obj [("lei", .null), ("name", .null)])]),
       ("registration", .obj
         [("initialRegistrationDate", .str "2013-11-29"),
          ("lastUpdateDate", .str "2024-01-10"),
          ("nextRenewalDate", .str "2025-01-10"),
          ("status", .str "ISSUED"),
          ("managingLou", .str "529900T8BM49AURSDO55"),
          ("corroborationLevel", .str "FULLY_CORROBORATED"),
          ("validatedAt", .obj [("id", .str "RA000189")]),
          ("validatedAs", .str "552 100 554")]),
       ("bic", bic), ("mic", .null), ("ocid", .null),
       ("spglobal", spglobal),
       ("conformityFlag", .str "CONFORMING")]),
     ("relationships", relationships)])]

/-- A relationship map with two linked relationships. -/
def sampleRels : JVal :=
  .obj [("managing-lou", .obj [("links", .obj [("related", .str "https://x/managing-lou")])]),
        ("lei-issuer", .obj [("links", .obj [("related", .str "https://x/lei-issuer")])])]

/-- A fully-populated record: a one-element transliterated-name list,
non-empty code lists and address lines, two relationships. -/
def sampleRecord : JVal :=
  mkRecord
    (.arr [.obj [("name", .str "Sampuru"), ("language", .str "ja"), ("type", .str "AUTO")]])
    (.arr [.str "ABCDEF12"])
    (.arr [.str "123456"])
    (.arr [.str "1 Main St", .str "Floor 2"])
    sampleRels

/-- The flat row `json_to_dataframe` produces for `sampleRecord`. -/
def sampleRow : FlatRow :=
  [("LEI", .str "529900W18LQJJN6SJ336"),
   ("Legal Name", .str "Sample Co"),
   ("Legal Name Language", .str "en"),
   ("Transliterated Legal Name", .str "Sampuru"),
   ("Transliterated Legal Name Language", .str "ja"),
   ("Transliterated Legal Name Type", .str "AUTO"),
   ("Legal Address", .str "1 Main St, Floor 2"),
   ("Legal Address Language", .str "en"),
   ("Legal Address City", .str "Paris"),
   ("Legal Address Region", .str "FR-75"),
   ("Legal Address Country", .str "FR"),
   ("Legal Address Postal Code", .str "75001"),
   ("Headquarters Address", .str "1 Main St, Floor 2"),
   ("Headquarters Address Language", .str "en"),
   ("Headquarters Address City", .str "Paris"),
   ("Headquarters Address Region", .str "FR-75"),
   ("Headquarters Address Country", .str "FR"),
   ("Headquarters Address Postal Code", .str "75001"),
   ("Jurisdiction", .str "FR"),
   ("Category", .str "GENERAL"),
   ("Legal Form ID", .str "6W6X"),
   ("Registered At ID", .str "RA000189"),
   ("Registered As", .str "552 100 554"),
   ("Entity Status", .str "ACTIVE"),
   ("Creation Date", .str "2000-01-01"),
   ("Expiration Date", .null),
   ("Expiration Reason", .null),
   ("Associated Entity LEI", .null),
   ("Associated Entity Name", .null),
   ("BIC Codes", .str "ABCDEF12"),
   ("MIC", .null),
   ("OCID", .null),
   ("SP Global IDs", .str "123456"),
   ("Conformity Flag", .str "CONFORMING"),
   ("Initial Registration Date", .str "2013-11-29"),
   ("Last Update Date", .str "2024-01-10"),
   ("Next Renewal Date", .str "2025-01-10"),
   ("Registration Status", .str "ISSUED"),
   ("Managing LOU", .str "529900T8BM49AURSDO55"),
   ("Corroboration Level", .str "FULLY_CORROBORATED"),
   ("Validated At ID", .str "RA000189"),
   ("Validated As", .str "552 100 554")]

/-- A record with an empty transliterated-name list, an empty `bic`
list, a `null` `spglobal`, empty legal-address lines, and no linked
relationships. -/
def sampleRecord2 : JVal :=
  mkRecord (.arr []) (.arr []) .null (.arr []) (.obj [])

/-- The flat row `json_to_dataframe` produces for `sampleRecord2`. -/
def sampleRow2 : FlatRow :=
  [("LEI", .str "529900W18LQJJN6SJ336"),
   ("Legal Name", .str "Sample Co"),
   ("Legal Name Language", .str "en"),
   ("Transliterated Legal Name", .null),
   ("Transliterated Legal Name Language", .null),
   ("Transliterated Legal Name Type", .null),
   ("Legal Address", .str ""),
   ("Legal Address Language", .str "en"),
   ("Legal Address City", .str "Paris"),
   ("Legal Address Region", .str "FR-75"),
   ("Legal Address Country", .str "FR"),
   ("Legal Address Postal Code", .str "75001"),
   ("Headquarters Address", .str "1 Main St, Floor 2"),
   ("Headquarters Address Language", .str "en"),
   ("Headquarters Address City", .str "Paris"),
   ("Headquarters Address Region", .str "FR-75"),
   ("Headquarters Address Country", .str "FR"),
   ("Headquarters Address Postal Code", .str "75001"),
   ("Jurisdiction", .str "FR"),
   ("Category", .str "GENERAL"),
   ("Legal Form ID", .str "6W6X"),
   ("Registered At ID", .str "RA000189"),
   ("Registered As", .str "552 100 554"),
   ("Entity Status", .str "ACTIVE"),
   ("Creation Date", .str "2000-01-01"),
   ("Expiration Date", .null),
   ("Expiration Reason", .null),
   ("Associated Entity LEI", .null),
   ("Associated Entity Name", .null),
   ("BIC Codes", .null),
   ("MIC", .null),
   ("OCID", .null),
   ("SP Global IDs", .null),
   ("Conformity Flag", .str "CONFORMING"),
   ("Initial Registration Date", .str "2013-11-29"),
   ("Last Update Date", .str "2024-01-10"),
   ("Next Renewal Date", .str "2025-01-10"),
   ("Registration Status", .str "ISSUED"),
   ("Managing LOU", .str "529900T8BM49AURSDO55"),
   ("Corroboration Level", .str "FULLY_CORROBORATED"),
   ("Validated At ID", .str "RA000189"),
   ("Validated As", .str "552 100 554")]

/-- A transport layer that answers every request the same way. -/
def netResp (status : Nat) (text : String) (body : JVal) : Net :=
  fun _ => .resp status text body

/-- A transport layer on which every request raises. -/
def netExn (details : String) : Net := fun _ => .exn details

/-- The payload of the one successfully fetched relationship in the C1
scenario. -/
def payload1 : JVal :=
  .obj [("data", .obj [("attributes", .obj [("lei", .str "PARENT123")])])]

/-- A transport layer on which the `managing-lou` relationship link
succeeds and every other URL (in particular the `lei-issuer` link)
returns a 500. -/
def relNet1 : Net := fun url =>
  if url = "https://x/managing-lou" then .resp 200 "" payload1
  else .resp 500 "Internal Server Error" .null

/-- The `Data` cells used by the C2 witness: one payload with a `data`
list holding a fresh identifier, the input identifier, an empty
identifier and an attribute-less object, and one payload with a `data`
single object. -/
def cellsC2 : List Cell :=
  [Cell.val (.obj [("data", .arr
     [.obj [("attributes", .obj [("lei", .str "A")])],
      .obj [("attributes", .obj [("lei", .str "X")])],
      .obj [("attributes", .obj [("lei", .str "")])],
      .obj []])]),
   Cell.val (.obj [("data", .obj [("attributes", .obj [("lei", .str "B")])])])]

/-- The `Data` cells used by the C3 witness: two payloads carrying the
same identifier. -/
def cellsC3 : List Cell :=
  [Cell.val (.obj [("data", .obj [("attributes", .obj [("lei", .str "A")])])]),
   Cell.val (.obj [("data", .obj [("attributes", .obj [("lei", .str "A")])])])]

/-- A parsed 200 body that itself carries a top-level `"error"` key. -/
def errBody : JVal :=
  .obj [("error", .str "LEI not found"), ("details", .str "no record")]

/-- Remove the key at the end of a path from a record (the prefix of
the path is followed through dicts; other shapes are left unchanged). -/
def removeLeaf (p : List String) : JVal → JVal :=
  match p with
  | [] => fun j => j
  | [k] => fun j =>
      match j with
      | .obj kvs => .obj (kvs.filter fun kv => kv.1 ≠ k)
      | j => j
  | k :: rest => fun j =>
      match j with
      | .obj kvs => .obj (kvs.map fun kv => if kv.1 = k then (kv.1, removeLeaf rest kv.2) else kv)
      | j => j

/-- Every path `json_to_dataframe` reads unconditionally (the three
bindings and each field's non-optional accesses). -/
def requiredPaths : List (List String) :=
  [["data"],
   ["data", "attributes"],
   ["data", "attributes", "entity"],
   ["data", "attributes", "registration"],
   ["data", "attributes", "lei"],
   ["data", "attributes", "entity", "legalName", "name"],
   ["data", "attributes", "entity", "legalName", "language"],
   ["data", "attributes", "entity", "transliteratedOtherNames"],
   ["data", "attributes", "entity", "legalAddress", "addressLines"],
   ["data", "attributes", "entity", "legalAddress", "language"],
   ["data", "attributes", "entity", "legalAddress", "city"],
   ["data", "attributes", "entity", "legalAddress", "region"],
   ["data", "attributes", "entity", "legalAddress", "country"],
   ["data", "attributes", "entity", "legalAddress", "postalCode"],
   ["data", "attributes", "entity", "headquartersAddress", "addressLines"],
   ["data", "attributes", "entity", "headquartersAddress", "language"],
   ["data", "attributes", "entity", "headquartersAddress", "city"],
   ["data", "attributes", "entity", "headquartersAddress", "region"],
   ["data", "attributes", "entity", "headquartersAddress", "country"],
   ["data", "attributes", "entity", "headquartersAddress", "postalCode"],
   ["data", "attributes", "entity", "jurisdiction"],
   ["data", "attributes", "entity", "category"],
   ["data", "attributes", "entity", "legalForm", "id"],
   ["data", "attributes", "entity", "registeredAt", "id"],
   ["data", "attributes", "entity", "registeredAs"],
   ["data", "attributes", "entity", "status"],
   ["data", "attributes", "entity", "creationDate"],
   ["data", "attributes", "entity", "expiration", "date"],
   ["data", "attributes", "entity", "expiration", "reason"],
   ["data", "attributes", "entity", "associatedEntity", "lei"],
   ["data", "attributes", "entity", "associatedEntity", "name"],
   ["data", "attributes", "bic"],
   ["data", "attributes", "mic"],
   ["data", "attributes", "ocid"],
   ["data", "attributes", "spglobal"],
   ["data", "attributes", "conformityFlag"],
   ["data", "attributes", "registration", "initialRegistrationDate"],
   ["data", "attributes", "registration", "lastUpdateDate"],
   ["data", "attributes", "registration", "nextRenewalDate"],
   ["data", "attributes", "registration", "status"],
   ["data", "attributes", "registration", "managingLou"],
   ["data", "attributes", "registration", "corroborationLevel"],
   ["data", "attributes", "registration", "validatedAt", "id"],
   ["data", "attributes", "registration", "validatedAs"]]

/-! ## Helper lemmas -/

@[simp] theorem ok_bind {α β : Type} (a : α) (f : α → Except PyErr β) :
    (Except.ok a : Except PyErr α) >>= f = f a := rfl

@[simp] theorem error_bind {α β : Type} (e : PyErr) (f : α → Except PyErr β) :
    (Except.error e : Except PyErr α) >>= f = (Except.error e : Except PyErr β) := rfl

@[simp] theorem pure_eq_ok {α : Type} (a : α) :
    (pure a : Except PyErr α) = Except.ok a := rfl

/-- Decompose a successful `Except` bind. -/
theorem bind_ok_inv {α β : Type} {x : Except PyErr α} {f : α → Except PyErr β} {b : β}
    (h : x >>= f = .ok b) : ∃ a, x = .ok a ∧ f a = .ok b := by
  cases x with
  | error e => simp at h
  | ok a => exact ⟨a, rfl, by simpa using h⟩

/-- If the dict-literal evaluation succeeded, then every field's
expression succeeded, and the row maps the field name to its value
(first match, so this follows the literal's own shadowing order). -/
theorem seqFields_ok_field {l : List (String × Except PyErr JVal)} {out : FlatRow}
    (h : seqFields l = .ok out) {k : String} {c : Except PyErr JVal}
    (hc : lookupKey l k = some c) : ∃ v, c = .ok v ∧ lookupKey out k = some v := by
  induction l generalizing out with
  | nil => simp [lookupKey] at hc
  | cons kv rest ih =>
      obtain ⟨k', c'⟩ := kv
      cases hc' : c' with
      | error e => simp [seqFields, hc'] at h
      | ok v =>
          cases hrest : seqFields rest with
          | error e => simp [seqFields, hc', hrest] at h
          | ok r =>
              have hout : out = (k', v) :: r := by
                simp [seqFields, hc', hrest] at h
                exact h.symm
              subst hout
              by_cases hk : k' = k
              · subst hk
                have hc2 : c' = c := by simpa [lookupKey] using hc
                exact ⟨v, hc2 ▸ hc', by simp [lookupKey]⟩
              · simp only [lookupKey, if_neg hk] at hc
                obtain ⟨w, hw, hw'⟩ := ih hrest hc
                exact ⟨w, hw, by simpa [lookupKey, hk] using hw'⟩

/-- Inversion of a successful flatten: the three bindings and the
literal evaluation all succeeded. -/
theorem json_to_dataframe_ok_inv {data : JVal} {row : FlatRow}
    (h : json_to_dataframe data = .ok row) :
    ∃ d attributes entity registration,
      getKey "data" data = .ok d ∧
      getKey "attributes" d = .ok attributes ∧
      getKey "entity" attributes = .ok entity ∧
      getKey "registration" attributes = .ok registration ∧
      seqFields (fieldSpecs attributes entity registration) = .ok row := by
  cases hd : getKey "data" data with
  | error e => simp [json_to_dataframe, hd] at h
  | ok d =>
      cases ha : getKey "attributes" d with
      | error e => simp [json_to_dataframe, hd, ha] at h
      | ok attributes =>
          cases he : getKey "entity" attributes with
          | error e => simp [json_to_dataframe, hd, ha, he] at h
          | ok entity =>
              cases hr : getKey "registration" attributes with
              | error e => simp [json_to_dataframe, hd, ha, he, hr] at h
              | ok registration =>
                  refine ⟨d, attributes, entity, registration, rfl, ha, he, hr, ?_⟩
                  simpa [json_to_dataframe, hd, ha, he, hr] using h

/-- Unfold one step of a path access through a known key. -/
theorem getPath_cons {j v : JVal} {k : String} {p : List String}
    (h : getKey k j = .ok v) : getPath j (k :: p) = getPath v p := by
  simp [getPath, h]

theorem getPath_singleton {j : JVal} {k : String} : getPath j [k] = getKey k j := by
  cases h : getKey k j <;> simp [getPath, h]

/-- A successful transliterated-name field read the
`transliteratedOtherNames` key. -/
theorem translitField_ok_inv {entity : JVal} {k : String} {v : JVal}
    (h : translitField entity k = .ok v) :
    ∃ ton, getKey "transliteratedOtherNames" entity = .ok ton := by
  obtain ⟨ton, h1, -⟩ := bind_ok_inv h
  exact ⟨ton, h1⟩

/-- A successful code-list field read its key. -/
theorem joinIfField_ok_inv {attributes : JVal} {k : String} {v : JVal}
    (h : joinIfField attributes k = .ok v) : ∃ w, getKey k attributes = .ok w := by
  obtain ⟨w, h1, -⟩ := bind_ok_inv h
  exact ⟨w, h1⟩

/-- A successful address-join field resolved its path. -/
theorem joinedPath_ok_inv {root : JVal} {p : List String} {v : JVal}
    (h : joinedPath root p = .ok v) : ∃ w, getPath root p = .ok w := by
  obtain ⟨w, h1, -⟩ := bind_ok_inv h
  exact ⟨w, h1⟩

/-- An invariant preserved by each step of a fallible fold is preserved
by the whole fold. -/
theorem foldlM_invariant {α β : Type} {P : β → Prop} {f : β → α → Except PyErr β}
    (hf : ∀ acc x out, f acc x = .ok out → P acc → P out) :
    ∀ (l : List α) (acc out : β), List.foldlM f acc l = .ok out → P acc → P out := by
  intro l
  induction l with
  | nil =>
      intro acc out h hP
      simp [List.foldlM] at h
      exact h ▸ hP
  | cons x xs ih =>
      intro acc out h hP
      rw [List.foldlM_cons] at h
      obtain ⟨acc', h1, h2⟩ := bind_ok_inv h
      exact ih acc' out h2 (hf acc x acc' h1 hP)

theorem scalarEq_eq {x y : JVal} (h : scalarEq x y = true) : x = y := by
  cases x <;> cases y <;> simp_all [scalarEq]

theorem scalarEq_refl {x : JVal} (h : hashable x = true) : scalarEq x x = true := by
  cases x <;> simp_all [scalarEq, hashable]

/-- Deduplication only keeps elements of the input. -/
theorem mem_dedupAcc {v : JVal} : ∀ {seen xs : List JVal}, v ∈ dedupAcc seen xs → v ∈ xs := by
  intro seen xs
  induction xs generalizing seen with
  | nil => simp [dedupAcc]
  | cons x rest ih =>
      intro h
      by_cases hx : seen.any (scalarEq x)
      · simp only [dedupAcc, if_pos hx] at h
        exact List.mem_cons_of_mem _ (ih h)
      · simp only [dedupAcc, if_neg hx] at h
        rcases List.mem_cons.mp h with rfl | h'
        · exact List.mem_cons_self _ _
        · exact List.mem_cons_of_mem _ (ih h')

/-- Deduplication keeps at least one copy of every input element. -/
theorem dedupAcc_complete {v : JVal} :
    ∀ {seen xs : List JVal}, v ∈ xs → v ∈ dedupAcc seen xs ∨ seen.any (scalarEq v) = true := by
  intro seen xs
  induction xs generalizing seen with
  | nil => simp
  | cons x rest ih =>
      intro h
      rcases List.mem_cons.mp h with rfl | h'
      · by_cases hx : seen.any (scalarEq v)
        · exact Or.inr hx
        · exact Or.inl (by simp only [dedupAcc, if_neg hx]; exact List.mem_cons_self _ _)
      · by_cases hx : seen.any (scalarEq x)
        · simp only [dedupAcc, if_pos hx]
          exact ih h'
        · simp only [dedupAcc, if_neg hx]
          rcases @ih (x :: seen) h' with h'' | h''
          · exact Or.inl (List.mem_cons_of_mem _ h'')
          · simp only [List.any_cons, Bool.or_eq_true] at h''
            rcases h'' with h'' | h''
            · exact Or.inl (by rw [scalarEq_eq h'']; exact List.mem_cons_self _ _)
            · exact Or.inr h''

/-- Nothing already seen reappears in the deduplicated output. -/
theorem dedupAcc_not_seen {v : JVal} :
    ∀ {seen xs : List JVal}, v ∈ dedupAcc seen xs → seen.any (scalarEq v) = false := by
  intro seen xs
  induction xs generalizing seen with
  | nil => simp [dedupAcc]
  | cons x rest ih =>
      intro h
      by_cases hx : seen.any (scalarEq x)
      · simp only [dedupAcc, if_pos hx] at h
        exact ih h
      · simp only [dedupAcc, if_neg hx] at h
        rcases List.mem_cons.mp h with rfl | h'
        · simpa using hx
        · have := ih h'
          simp only [List.any_cons, Bool.or_eq_false_iff] at this
          exact this.2

/-- The deduplicated output of a list of hashable values has no
duplicates. -/
theorem dedupAcc_nodup :
    ∀ {xs seen : List JVal}, (∀ x ∈ xs, hashable x = true) → (dedupAcc seen xs).Nodup := by
  intro xs
  induction xs with
  | nil => intro seen _; simp [dedupAcc]
  | cons x rest ih =>
      intro seen hh
      by_cases hx : seen.any (scalarEq x)
      · simp only [dedupAcc, if_pos hx]
        exact ih fun y hy => hh y (List.mem_cons_of_mem _ hy)
      · simp only [dedupAcc, if_neg hx]
        refine List.nodup_cons.mpr ⟨fun hmem => ?_, ih fun y hy => hh y (List.mem_cons_of_mem _ hy)⟩
        have h1 := dedupAcc_not_seen hmem
        simp only [List.any_cons, Bool.or_eq_false_iff] at h1
        have hx' : hashable x = true := hh x (List.mem_cons_self _ _)
        rw [scalarEq_refl hx'] at h1
        simp at h1

/-- If the dict literal evaluated successfully, the field expression
found at a given name succeeded. -/
theorem fieldSpecs_ok (k : String) {attributes entity registration : JVal} {row : FlatRow}
    (hsf : seqFields (fieldSpecs attributes entity registration) = .ok row)
    {c : Except PyErr JVal}
    (hc : lookupKey (fieldSpecs attributes entity registration) k = some c) :
    ∃ v, c = .ok v := by
  obtain ⟨v, hv, -⟩ := seqFields_ok_field hsf hc
  exact ⟨v, hv⟩

/-- A record the flattener accepts resolves every required path. -/
theorem json_to_dataframe_ok_paths {r : JVal} {row : FlatRow}
    (hok : json_to_dataframe r = .ok row) :
    ∀ p ∈ requiredPaths, ∃ v, getPath r p = .ok v := by
  obtain ⟨d, attributes, entity, registration, hd, ha, he, hr, hsf⟩ :=
    json_to_dataframe_ok_inv hok
  have hA : ∀ tail, getPath r ("data" :: "attributes" :: tail) = getPath attributes tail := by
    intro tail
    rw [getPath_cons hd, getPath_cons ha]
  have hE : ∀ tail, getPath r ("data" :: "attributes" :: "entity" :: tail) =
      getPath entity tail := by
    intro tail
    rw [getPath_cons hd, getPath_cons ha, getPath_cons he]
  have hR : ∀ tail, getPath r ("data" :: "attributes" :: "registration" :: tail) =
      getPath registration tail := by
    intro tail
    rw [getPath_cons hd, getPath_cons ha, getPath_cons hr]
  intro p hp
  fin_cases hp
  · exact ⟨d, by rw [getPath_singleton]; exact hd⟩
  · exact ⟨attributes, by rw [getPath_cons hd, getPath_singleton]; exact ha⟩
  · exact ⟨entity, by rw [getPath_cons hd, getPath_cons ha, getPath_singleton]; exact he⟩
  · exact ⟨registration, by rw [getPath_cons hd, getPath_cons ha, getPath_singleton]; exact hr⟩
  · rw [hA ["lei"], getPath_singleton]
    exact fieldSpecs_ok "LEI" hsf rfl
  · rw [hE ["legalName", "name"]]
    exact fieldSpecs_ok "Legal Name" hsf rfl
  · rw [hE ["legalName", "language"]]
    exact fieldSpecs_ok "Legal Name Language" hsf rfl
  · rw [hE ["transliteratedOtherNames"], getPath_singleton]
    obtain ⟨v, hv⟩ := fieldSpecs_ok "Transliterated Legal Name" hsf rfl
    exact translitField_ok_inv hv
  · rw [hE ["legalAddress", "addressLines"]]
    obtain ⟨v, hv⟩ := fieldSpecs_ok "Legal Address" hsf rfl
    exact joinedPath_ok_inv hv
  · rw [hE ["legalAddress", "language"]]
    exact fieldSpecs_ok "Legal Address Language" hsf rfl
  · rw [hE ["legalAddress", "city"]]
    exact fieldSpecs_ok "Legal Address City" hsf rfl
  · rw [hE ["legalAddress", "region"]]
    exact fieldSpecs_ok "Legal Address Region" hsf rfl
  · rw [hE ["legalAddress", "country"]]
    exact fieldSpecs_ok "Legal Address Country" hsf rfl
  · rw [hE ["legalAddress", "postalCode"]]
    exact fieldSpecs_ok "Legal Address Postal Code" hsf rfl
  · rw [hE ["headquartersAddress", "addressLines"]]
    obtain ⟨v, hv⟩ := fieldSpecs_ok "Headquarters Address" hsf rfl
    exact joinedPath_ok_inv hv
  · rw [hE ["headquartersAddress", "language"]]
    exact fieldSpecs_ok "Headquarters Address Language" hsf rfl
  · rw [hE ["headquartersAddress", "city"]]
    exact fieldSpecs_ok "Headquarters Address City" hsf rfl
  · rw [hE ["headquartersAddress", "region"]]
    exact fieldSpecs_ok "Headquarters Address Region" hsf rfl
  · rw [hE ["headquartersAddress", "country"]]
    exact fieldSpecs_ok "Headquarters Address Country" hsf rfl
  · rw [hE ["headquartersAddress", "postalCode"]]
    exact fieldSpecs_ok "Headquarters Address Postal Code" hsf rfl
  · rw [hE ["jurisdiction"], getPath_singleton]
    exact fieldSpecs_ok "Jurisdiction" hsf rfl
  · rw [hE ["category"], getPath_singleton]
    exact fieldSpecs_ok "Category" hsf rfl
  · rw [hE ["legalForm", "id"]]
    exact fieldSpecs_ok "Legal Form ID" hsf rfl
  · rw [hE ["registeredAt", "id"]]
    exact fieldSpecs_ok "Registered At ID" hsf rfl
  · rw [hE ["registeredAs"], getPath_singleton]
    exact fieldSpecs_ok "Registered As" hsf rfl
  · rw [hE ["status"], getPath_singleton]
    exact fieldSpecs_ok "Entity Status" hsf rfl
  · rw [hE ["creationDate"], getPath_singleton]
    exact fieldSpecs_ok "Creation Date" hsf rfl
  · rw [hE ["expiration", "date"]]
    exact fieldSpecs_ok "Expiration Date" hsf rfl
  · rw [hE ["expiration", "reason"]]
    exact fieldSpecs_ok "Expiration Reason" hsf rfl
  · rw [hE ["associatedEntity", "lei"]]
    exact fieldSpecs_ok "Associated Entity LEI" hsf rfl
  · rw [hE ["associatedEntity", "name"]]
    exact fieldSpecs_ok "Associated Entity Name" hsf rfl
  · rw [hA ["bic"], getPath_singleton]
    obtain ⟨v, hv⟩ := fieldSpecs_ok "BIC Codes" hsf rfl
    exact joinIfField_ok_inv hv
  · rw [hA ["mic"], getPath_singleton]
    exact fieldSpecs_ok "MIC" hsf rfl
  · rw [hA ["ocid"], getPath_singleton]
    exact fieldSpecs_ok "OCID" hsf rfl
  · rw [hA ["spglobal"], getPath_singleton]
    obtain ⟨v, hv⟩ := fieldSpecs_ok "SP Global IDs" hsf rfl
    exact joinIfField_ok_inv hv
  · rw [hA ["conformityFlag"], getPath_singleton]
    exact fieldSpecs_ok "Conformity Flag" hsf rfl
  · rw [hR ["initialRegistrationDate"], getPath_singleton]
    exact fieldSpecs_ok "Initial Registration Date" hsf rfl
  · rw [hR ["lastUpdateDate"], getPath_singleton]
    exact fieldSpecs_ok "Last Update Date" hsf rfl
  · rw [hR ["nextRenewalDate"], getPath_singleton]
    exact fieldSpecs_ok "Next Renewal Date" hsf rfl
  · rw [hR ["status"], getPath_singleton]
    exact fieldSpecs_ok "Registration Status" hsf rfl
  · rw [hR ["managingLou"], getPath_singleton]
    exact fieldSpecs_ok "Managing LOU" hsf rfl
  · rw [hR ["corroborationLevel"], getPath_singleton]
    exact fieldSpecs_ok "Corroboration Level" hsf rfl
  · rw [hR ["validatedAt", "id"]]
    exact fieldSpecs_ok "Validated At ID" hsf rfl
  · rw [hR ["validatedAs"], getPath_singleton]
    exact fieldSpecs_ok "Validated As" hsf rfl

/-! ## Claims -/

/-- **C5.** For every identifier, `get_lei_information` returns the
parsed body whenever the response status indicates success (the code's
success test is status = 200), and on a completed exchange with a
non-success status it returns the upstream-error dict carrying the
status code in its message and the raw response body verbatim,
unparsed, as `details`. -/
theorem C5_fetch_status_branching (net : Net) (lei : String)
    (status : Nat) (text : String) (body : JVal)
    (h : net (leiUrl lei) = .resp status text body) :
    (status = 200 → get_lei_information net lei = body) ∧
    (status ≠ 200 →
      get_lei_information net lei =
        .obj [("error",
               .str ("Error retrieving data (status code " ++ toString status ++ ").")),
              ("details", .str text)]) := by
  constructor <;> intro hs <;> simp [get_lei_information, h, hs]

/-- Witness for C5 at a concrete 404 exchange. -/
theorem C5_witness :
    get_lei_information (netResp 404 "not found" .null) "X" =
      .obj [("error", .str "Error retrieving data (status code 404)."),
            ("details", .str "not found")] :=
  (C5_fetch_status_branching (netResp 404 "not found" .null) "X" 404 "not found" .null
    rfl).2 (by decide)

/-- **C9.** `json_to_dataframe` is deterministic: two applications to
the same record yield identical flat rows (the embedding of the
flattener is a pure function of the record). -/
theorem C9_flatten_deterministic (r : JVal) (row₁ row₂ : FlatRow)
    (h₁ : json_to_dataframe r = .ok row₁) (h₂ : json_to_dataframe r = .ok row₂) :
    row₁ = row₂ := by
  rw [h₁] at h₂
  exact (Except.ok.injEq _ _ ▸ h₂ : row₁ = row₂)

/-- Witness for C9 at the sample record. -/
theorem C9_witness : sampleRow = sampleRow :=
  C9_flatten_deterministic sampleRecord sampleRow sampleRow rfl rfl

/-- Every identifier `appendLei` appends passed the guard
`lei and lei != input_lei`. -/
theorem appendLei_invariant {input : String} {acc out : List JVal} {entry : JVal}
    (h : appendLei input acc entry = .ok out)
    (hP : ∀ v ∈ acc, truthy v = true ∧ pyEqStr v input = false) :
    ∀ v ∈ out, truthy v = true ∧ pyEqStr v input = false := by
  unfold appendLei at h
  obtain ⟨attrs, h1, h2⟩ := bind_ok_inv h
  obtain ⟨lei, h3, h4⟩ := bind_ok_inv h2
  simp only [pure_eq_ok, Except.ok.injEq] at h4
  by_cases hc : (truthy lei && !pyEqStr lei input) = true
  · rw [if_pos hc] at h4
    subst h4
    intro v hv
    rcases List.mem_append.mp hv with hv' | hv'
    · exact hP v hv'
    · have hvl : v = lei := by simpa using hv'
      subst hvl
      exact (by simpa using hc : truthy v = true ∧ pyEqStr v input = false)
  · rw [if_neg hc] at h4
    subst h4
    exact hP

/-- The per-payload loop body preserves the guard invariant. -/
theorem cellLeis_invariant {input : String} {acc out : List JVal} {cell : Cell}
    (h : cellLeis input acc cell = .ok out)
    (hP : ∀ v ∈ acc, truthy v = true ∧ pyEqStr v input = false) :
    ∀ v ∈ out, truthy v = true ∧ pyEqStr v input = false := by
  cases cell with
  | nan => simp [cellLeis] at h
  | val relationship =>
      unfold cellLeis at h
      obtain ⟨data_field, h1, h2⟩ := bind_ok_inv h
      cases data_field with
      | arr entries =>
          exact foldlM_invariant (fun a x o ho hPa => appendLei_invariant ho hPa)
            entries acc out h2 hP
      | obj kvs => exact appendLei_invariant h2 hP
      | null => simp at h2; exact h2 ▸ hP
      | bool b => simp at h2; exact h2 ▸ hP
      | num n => simp at h2; exact h2 ▸ hP
      | str s => simp at h2; exact h2 ▸ hP

/-- **C2.** Whatever the payload shapes (`data` a single object or a
list of objects), a successful `extract_related_leis` never returns the
input identifier, the empty string, or a missing (`None`) identifier. -/
theorem C2_extract_excludes_input (cells : List Cell) (input : String) (out : List JVal)
    (h : extract_related_leis cells input = .ok out) :
    ∀ v ∈ out, v ≠ .str input ∧ v ≠ .str "" ∧ v ≠ .null := by
  unfold extract_related_leis at h
  obtain ⟨xs, h1, h2⟩ := bind_ok_inv h
  have hP : ∀ v ∈ xs, truthy v = true ∧ pyEqStr v input = false :=
    foldlM_invariant (fun a x o ho hPa => cellLeis_invariant ho hPa) cells [] xs h1
      (by simp)
  unfold pySet at h2
  by_cases hh : xs.all hashable
  · rw [if_pos hh] at h2
    simp only [Except.ok.injEq] at h2
    intro v hv
    have hvxs : v ∈ xs := mem_dedupAcc (h2 ▸ hv)
    obtain ⟨ht, hn⟩ := hP v hvxs
    refine ⟨?_, ?_, ?_⟩
    · rintro rfl
      simp [pyEqStr] at hn
    · rintro rfl
      exact absurd ht (by decide)
    · rintro rfl
      exact absurd ht (by decide)
  · rw [if_neg hh] at h2
    cases h2

/-- Witness for C2: on `cellsC2` with input `"X"`, only `"A"` and `"B"`
come back, and the returned `"A"` is neither the input, empty, nor
missing. -/
theorem C2_witness :
    extract_related_leis cellsC2 "X" = .ok [JVal.str "A", JVal.str "B"] ∧
      (JVal.str "A" ≠ JVal.str "X" ∧ JVal.str "A" ≠ JVal.str "" ∧ JVal.str "A" ≠ JVal.null) :=
  ⟨rfl, C2_extract_excludes_input cellsC2 "X" [JVal.str "A", JVal.str "B"] rfl
    (JVal.str "A") (by simp)⟩

/-- **C3.** A successful `extract_related_leis` output has no
duplicates, and loses nothing: it holds exactly the identifiers the
extraction loop appended, each exactly once. -/
theorem C3_extract_dedup (cells : List Cell) (input : String) (out : List JVal)
    (h : extract_related_leis cells input = .ok out) :
    out.Nodup ∧ ∃ related_leis,
      List.foldlM (cellLeis input) [] cells = .ok related_leis ∧
        ∀ v, v ∈ out ↔ v ∈ related_leis := by
  unfold extract_related_leis at h
  obtain ⟨xs, h1, h2⟩ := bind_ok_inv h
  unfold pySet at h2
  by_cases hh : xs.all hashable
  · rw [if_pos hh] at h2
    simp only [Except.ok.injEq] at h2
    have hhash : ∀ x ∈ xs, hashable x = true := by
      intro x hx
      exact List.all_eq_true.mp hh x hx
    subst h2
    refine ⟨dedupAcc_nodup hhash, xs, h1, fun v => ⟨mem_dedupAcc, fun hv => ?_⟩⟩
    rcases @dedupAcc_complete v [] _ hv with h' | h'
    · exact h'
    · simp at h'
  · rw [if_neg hh] at h2
    cases h2

/-- Witness for C3: an identifier occurring in two payloads appears
exactly once. -/
theorem C3_witness :
    extract_related_leis cellsC3 "X" = .ok [JVal.str "A"] ∧
      List.Nodup [JVal.str "A"] :=
  ⟨rfl, (C3_extract_dedup cellsC3 "X" [JVal.str "A"] rfl).1⟩

/-- **C1.** When one relationship link fails and the other succeeds,
`fetch_relationship_data` does isolate the failure — one `Error` entry,
one `Data` entry — but the claim's second half fails: the error row's
`Data` cell is the pandas `NaN` fill, on which `extract_related_leis`
calls `.get("data")` and raises `AttributeError`, so the subsequent
identifier extraction does not succeed (and the whole lookup crashes)
instead of yielding the successfully fetched identifiers. -/
theorem C1_relationship_failure_not_isolated :
    fetch_relationship_data relNet1 sampleRecord = .ok
      [.data "managing-lou" "https://x/managing-lou" payload1,
       .err "lei-issuer" "https://x/lei-issuer" (httpErrorMsg 500 "https://x/lei-issuer")] ∧
    dataColumn
      [.data "managing-lou" "https://x/managing-lou" payload1,
       .err "lei-issuer" "https://x/lei-issuer" (httpErrorMsg 500 "https://x/lei-issuer")] =
      .ok [Cell.val payload1, Cell.nan] ∧
    extract_related_leis [Cell.val payload1, Cell.nan] "529900W18LQJJN6SJ336" =
      .error .attributeError ∧
    mainFlow (netResp 200 "" sampleRecord) relNet1 "529900W18LQJJN6SJ336" =
      .crash .attributeError :=
  ⟨rfl, rfl, rfl, rfl⟩

/-- **C7.** When the primary fetch fails — a raised request exception
or a completed exchange with a non-success status — the flow renders
only the primary error notice: no flat row is produced and the result
does not depend on the relationship transport at all (relationship
resolution is never invoked). -/
theorem C7_primary_failure_halts (net : Net) (input : String)
    (h : (∃ d, net (leiUrl input) = .exn d) ∨
         ∃ s t b, net (leiUrl input) = .resp s t b ∧ s ≠ 200) :
    ∃ m d, ∀ relNet : Net, mainFlow net relNet input = .primaryError m d := by
  rcases h with ⟨dd, hnet⟩ | ⟨s, t, b, hnet, hs⟩
  · refine ⟨.str "An error occurred during the request.", .str dd, fun relNet => ?_⟩
    unfold mainFlow
    rw [show get_lei_information net input =
        .obj [("error", .str "An error occurred during the request."),
              ("details", .str dd)] from by
      simp [get_lei_information, hnet]]
    rfl
  · refine ⟨.str ("Error retrieving data (status code " ++ toString s ++ ")."), .str t,
      fun relNet => ?_⟩
    unfold mainFlow
    rw [show get_lei_information net input =
        .obj [("error", .str ("Error retrieving data (status code " ++ toString s ++ ").")),
              ("details", .str t)] from by
      simp [get_lei_information, hnet, hs]]
    rfl

/-- Witness for C7: with an unreachable network, the rendered outcome
is identical under two different relationship transports — relationship
resolution is never consulted. -/
theorem C7_witness :
    mainFlow (netExn "connection timed out") (netResp 200 "" .null) "X" =
      mainFlow (netExn "connection timed out") (netExn "offline") "X" := by
  obtain ⟨m, d, hall⟩ :=
    C7_primary_failure_halts (netExn "connection timed out") "X"
      (Or.inl ⟨"connection timed out", rfl⟩)
  rw [hall (netResp 200 "" .null), hall (netExn "offline")]

/-- **C10.** The flow discriminates success from failure solely by the
presence of a top-level `"error"` key: even on a successful fetch (a
parsed 200 body), a body carrying an `"error"` key is treated as a
failed lookup — no flat row is ever rendered, and when a `"details"`
key is also present the error notice is shown exactly as for a real
fetch failure. -/
theorem C10_error_key_discrimination (net relNet : Net) (input : String)
    (t : String) (kvs : List (String × JVal))
    (hnet : net (leiUrl input) = .resp 200 t (.obj kvs))
    (herr : (lookupKey kvs "error").isSome = true) :
    (∀ row rel, mainFlow net relNet input ≠ .rendered row rel) ∧
    ∀ m d, lookupKey kvs "error" = some m → lookupKey kvs "details" = some d →
      mainFlow net relNet input = .primaryError m d := by
  have hdata : get_lei_information net input = .obj kvs := by
    simp [get_lei_information, hnet]
  have hcont : pyContains (JVal.obj kvs) "error" = .ok true := by
    simp [pyContains, herr]
  have hmain : mainFlow net relNet input =
      (match getKey "error" (JVal.obj kvs) with
       | .error e => .crash e
       | .ok m =>
         match getKey "details" (JVal.obj kvs) with
         | .error e => .crash e
         | .ok dd => LookupResult.primaryError m dd) := by
    simp only [mainFlow, hdata, hcont]
  constructor
  · intro row rel
    rw [hmain]
    cases getKey "error" (JVal.obj kvs) with
    | error e => simp
    | ok m =>
        cases getKey "details" (JVal.obj kvs) with
        | error e => simp
        | ok dd => simp
  · intro m dd hm hd
    rw [hmain,
      show getKey "error" (JVal.obj kvs) = .ok m from by simp [getKey, hm],
      show getKey "details" (JVal.obj kvs) = .ok dd from by simp [getKey, hd]]

/-- Witness for C10: a 200 response whose body carries `"error"` is
rendered as a failed lookup. -/
theorem C10_witness :
    mainFlow (netResp 200 "{}" errBody) (netResp 200 "" .null) "X" =
      .primaryError (.str "LEI not found") (.str "no record") :=
  (C10_error_key_discrimination (netResp 200 "{}" errBody) (netResp 200 "" .null) "X" "{}"
    [("error", .str "LEI not found"), ("details", .str "no record")] rfl rfl).2
    (.str "LEI not found") (.str "no record") rfl rfl

/-- **C4.** On any record the flattener accepts, an empty (or
present-but-`null`) `attributes.bic` list yields a `null` "BIC Codes"
field, likewise "SP Global IDs" for `attributes.spglobal`, while an
empty `entity.legalAddress.addressLines` list joins into the empty
string — never `null` — for "Legal Address": the two empty-list
policies are distinct.  (A record whose `bic` key is missing outright
cannot flatten at all; that is the required-path behaviour settled
with the C8 theorem.) -/
theorem C4_empty_list_policies (r : JVal) (row : FlatRow)
    (hok : json_to_dataframe r = .ok row) :
    ((getPath r ["data", "attributes", "bic"] = .ok (.arr []) ∨
      getPath r ["data", "attributes", "bic"] = .ok .null) →
        lookupKey row "BIC Codes" = some JVal.null) ∧
    ((getPath r ["data", "attributes", "spglobal"] = .ok (.arr []) ∨
      getPath r ["data", "attributes", "spglobal"] = .ok .null) →
        lookupKey row "SP Global IDs" = some JVal.null) ∧
    (getPath r ["data", "attributes", "entity", "legalAddress", "addressLines"] =
        .ok (.arr []) →
      lookupKey row "Legal Address" = some (JVal.str "")) := by
  obtain ⟨d, attributes, entity, registration, hd, ha, he, hr, hsf⟩ :=
    json_to_dataframe_ok_inv hok
  have hbic : getPath r ["data", "attributes", "bic"] = getKey "bic" attributes := by
    rw [getPath_cons hd, getPath_cons ha, getPath_singleton]
  have hsp : getPath r ["data", "attributes", "spglobal"] = getKey "spglobal" attributes := by
    rw [getPath_cons hd, getPath_cons ha, getPath_singleton]
  have hla : getPath r ["data", "attributes", "entity", "legalAddress", "addressLines"] =
      getPath entity ["legalAddress", "addressLines"] := by
    rw [getPath_cons hd, getPath_cons ha, getPath_cons he]
  obtain ⟨vb, hvb, hrowb⟩ := seqFields_ok_field hsf
    (show lookupKey (fieldSpecs attributes entity registration) "BIC Codes" =
      some (joinIfField attributes "bic") from rfl)
  obtain ⟨vs, hvs, hrows⟩ := seqFields_ok_field hsf
    (show lookupKey (fieldSpecs attributes entity registration) "SP Global IDs" =
      some (joinIfField attributes "spglobal") from rfl)
  obtain ⟨vl, hvl, hrowl⟩ := seqFields_ok_field hsf
    (show lookupKey (fieldSpecs attributes entity registration) "Legal Address" =
      some (joinedPath entity ["legalAddress", "addressLines"]) from rfl)
  refine ⟨?_, ?_, ?_⟩
  · intro hcase
    rw [hbic] at hcase
    have hcomp : joinIfField attributes "bic" = .ok JVal.null := by
      rcases hcase with h | h <;> (unfold joinIfField; rw [h]; rfl)
    rw [hvb] at hcomp
    injection hcomp with hnull
    rw [← hnull]
    exact hrowb
  · intro hcase
    rw [hsp] at hcase
    have hcomp : joinIfField attributes "spglobal" = .ok JVal.null := by
      rcases hcase with h | h <;> (unfold joinIfField; rw [h]; rfl)
    rw [hvs] at hcomp
    injection hcomp with hnull
    rw [← hnull]
    exact hrows
  · intro hcase
    rw [hla] at hcase
    have hcomp : joinedPath entity ["legalAddress", "addressLines"] = .ok (JVal.str "") := by
      unfold joinedPath
      rw [hcase]
      rfl
    rw [hvl] at hcomp
    injection hcomp with hstr
    rw [← hstr]
    exact hrowl

/-- Witness for C4 at `sampleRecord2` (empty `bic`, `null` `spglobal`,
empty legal-address lines). -/
theorem C4_witness :
    lookupKey sampleRow2 "BIC Codes" = some JVal.null ∧
    lookupKey sampleRow2 "SP Global IDs" = some JVal.null ∧
    lookupKey sampleRow2 "Legal Address" = some (JVal.str "") :=
  ⟨(C4_empty_list_policies sampleRecord2 sampleRow2 rfl).1 (Or.inl rfl),
   (C4_empty_list_policies sampleRecord2 sampleRow2 rfl).2.1 (Or.inr rfl),
   (C4_empty_list_policies sampleRecord2 sampleRow2 rfl).2.2 rfl⟩

/-- **C6.** On any record the flattener accepts: an empty
`entity.transliteratedOtherNames` list gives `null` for all three
transliterated-name fields, and a non-empty list projects exactly the
first entry's `name`, `language` and `type`. -/
theorem C6_transliterated_name_projection (r : JVal) (row : FlatRow)
    (hok : json_to_dataframe r = .ok row) :
    (getPath r ["data", "attributes", "entity", "transliteratedOtherNames"] = .ok (.arr []) →
       lookupKey row "Transliterated Legal Name" = some JVal.null ∧
       lookupKey row "Transliterated Legal Name Language" = some JVal.null ∧
       lookupKey row "Transliterated Legal Name Type" = some JVal.null) ∧
    (∀ e rest,
       getPath r ["data", "attributes", "entity", "transliteratedOtherNames"] =
         .ok (.arr (e :: rest)) →
       ∃ n l t, getKey "name" e = .ok n ∧ getKey "language" e = .ok l ∧
         getKey "type" e = .ok t ∧
         lookupKey row "Transliterated Legal Name" = some n ∧
         lookupKey row "Transliterated Legal Name Language" = some l ∧
         lookupKey row "Transliterated Legal Name Type" = some t) := by
  obtain ⟨d, attributes, entity, registration, hd, ha, he, hr, hsf⟩ :=
    json_to_dataframe_ok_inv hok
  have hton : getPath r ["data", "attributes", "entity", "transliteratedOtherNames"] =
      getKey "transliteratedOtherNames" entity := by
    rw [getPath_cons hd, getPath_cons ha, getPath_cons he, getPath_singleton]
  obtain ⟨vn, hvn, hrown⟩ := seqFields_ok_field hsf
    (show lookupKey (fieldSpecs attributes entity registration) "Transliterated Legal Name" =
      some (translitField entity "name") from rfl)
  obtain ⟨vl, hvl, hrowl⟩ := seqFields_ok_field hsf
    (show lookupKey (fieldSpecs attributes entity registration)
        "Transliterated Legal Name Language" = some (translitField entity "language") from rfl)
  obtain ⟨vt, hvt, hrowt⟩ := seqFields_ok_field hsf
    (show lookupKey (fieldSpecs attributes entity registration)
        "Transliterated Legal Name Type" = some (translitField entity "type") from rfl)
  constructor
  · intro hcase
    rw [hton] at hcase
    have hn : translitField entity "name" = .ok JVal.null := by
      unfold translitField; rw [hcase]; rfl
    have hl : translitField entity "language" = .ok JVal.null := by
      unfold translitField; rw [hcase]; rfl
    have ht : translitField entity "type" = .ok JVal.null := by
      unfold translitField; rw [hcase]; rfl
    rw [hvn] at hn; injection hn with hn
    rw [hvl] at hl; injection hl with hl
    rw [hvt] at ht; injection ht with ht
    exact ⟨hn ▸ hrown, hl ▸ hrowl, ht ▸ hrowt⟩
  · intro e rest hcase
    rw [hton] at hcase
    have hn : translitField entity "name" = getKey "name" e := by
      unfold translitField; rw [hcase]; rfl
    have hl : translitField entity "language" = getKey "language" e := by
      unfold translitField; rw [hcase]; rfl
    have ht : translitField entity "type" = getKey "type" e := by
      unfold translitField; rw [hcase]; rfl
    exact ⟨vn, vl, vt, hn ▸ hvn, hl ▸ hvl, ht ▸ hvt, hrown, hrowl, hrowt⟩

/-- **C8.** Flatten fails loudly, never defaulting, when a required
path is absent: (i) no record missing any required path ever flattens
to a row; (ii) removing any single required path from a record the
flattener accepts makes it fail with a `KeyError` naming the missing
path's final key (shown across all 44 required paths at the sample
record). -/
theorem C8_missing_required_path_fails :
    (∀ (r : JVal) (p : List String), p ∈ requiredPaths →
        (∀ v, getPath r p ≠ .ok v) → ∀ row, json_to_dataframe r ≠ .ok row) ∧
    (∀ p ∈ requiredPaths,
        json_to_dataframe (removeLeaf p sampleRecord) =
          .error (.keyError (p.getLastD ""))) := by
  constructor
  · intro r p hp habs row hok
    obtain ⟨v, hv⟩ := json_to_dataframe_ok_paths hok p hp
    exact habs v hv
  · intro p hp
    fin_cases hp <;> rfl

/-- Witness for C8: removing the `bic` key from the sample record makes
flatten fail with a `KeyError` naming `bic`. -/
theorem C8_witness :
    json_to_dataframe (removeLeaf ["data", "attributes", "bic"] sampleRecord) =
      .error (.keyError "bic") :=
  C8_missing_required_path_fails.2 ["data", "attributes", "bic"] (by simp [requiredPaths])

/-- Witness for C6: the empty list at `sampleRecord2` (all three fields
`null`) and the one-element list at `sampleRecord` (the first entry's
values projected). -/
theorem C6_witness :
    (lookupKey sampleRow2 "Transliterated Legal Name" = some JVal.null ∧
     lookupKey sampleRow2 "Transliterated Legal Name Language" = some JVal.null ∧
     lookupKey sampleRow2 "Transliterated Legal Name Type" = some JVal.null) ∧
    (∃ n l t,
       getKey "name" (.obj [("name", .str "Sampuru"), ("language", .str "ja"),
         ("type", .str "AUTO")]) = .ok n ∧
       getKey "language" (.obj [("name", .str "Sampuru"), ("language", .str "ja"),
         ("type", .str "AUTO")]) = .ok l ∧
       getKey "type" (.obj [("name", .str "Sampuru"), ("language", .str "ja"),
         ("type", .str "AUTO")]) = .ok t ∧
       lookupKey sampleRow "Transliterated Legal Name" = some n ∧
       lookupKey sampleRow "Transliterated Legal Name Language" = some l ∧
       lookupKey sampleRow "Transliterated Legal Name Type" = some t) :=
  ⟨(C6_transliterated_name_projection sampleRecord2 sampleRow2 rfl).1 rfl,
   (C6_transliterated_name_projection sampleRecord sampleRow rfl).2
     (.obj [("name", .str "Sampuru"), ("language", .str "ja"), ("type", .str "AUTO")])
     [] rfl⟩
